import Mathlib

/-! Shallow embedding of the h2ogpte chat session protocol client
(`session.py`, `session_async.py`) and the long-poll job waiter of
`h2ogpte.py`.  Real-valued times, timeouts and progress values are
modelled as rationals; wall-clock sampling is modelled by explicit
poll schedules, and the websocket receive stream by explicit lists of
decoded frames. -/

/-- Decoded `cx` acknowledgement frame (`types.ChatAcknowledgement`). -/
structure ChatAcknowledgement where
  session_id : String
  correlation_id : String
  message_id : String
deriving DecidableEq

/-- Decoded `ca`/`cp`/`ce` frame (`types.ChatResponse`); `t` keeps the tag. -/
structure ChatResponse where
  t : String
  session_id : String
  message_id : String
  reply_to_id : String
  body : String
  error : String
deriving DecidableEq

/-- A decoded incoming frame, as produced by `deserialize` in `session.py`:
a `cx` line decodes to a `ChatAcknowledgement`, the three other known tags
decode to a `ChatResponse` carrying the tag. -/
inductive Frame where
  | ack (a : ChatAcknowledgement)
  | resp (r : ChatResponse)
deriving DecidableEq

/-- The `session_id` field every decoded frame carries. -/
def Frame.sessionId : Frame → String
  | .ack a => a.session_id
  | .resp r => r.session_id

/-- `types.ChatMessage` (the `created_at` wall-clock field is omitted,
no claim depends on it). -/
structure ChatMessage where
  id : String
  content : String
  reply_to : Option String
  votes : Int
  type_list : List String
deriving DecidableEq

/-- `types.PartialChatMessage`. -/
structure PartialChatMessage where
  id : String
  content : String
  reply_to : Option String
deriving DecidableEq

/-- One invocation of the caller-supplied callback in the synchronous
`Session.query`: on a matching `cp` frame it receives the current partial
snapshot, on the terminal `ca` frame the final message. -/
inductive CallbackEvent where
  | onPartialMsg (p : PartialChatMessage)
  | onFinalMsg (m : ChatMessage)
deriving DecidableEq

/-- Loop state of the synchronous `Session.query`: the server-assigned
`request_id` (set by a matching ack, `None` before) and the callback
invocations made so far, in order. -/
structure SyncState where
  request_id : Option String
  events : List CallbackEvent
deriving DecidableEq

/-- Result of processing one decoded frame inside `Session.query`:
continue waiting, return (with `none` when a callback consumed the
result), or raise a `SessionError` with the given message. -/
inductive SyncStep where
  | next (s : SyncState)
  | done (ret : Option ChatMessage) (s : SyncState)
  | fail (msg : String) (s : SyncState)
deriving DecidableEq

/-- The frame dispatch of the synchronous `Session.query`
(session.py lines 267-311), one decoded frame at a time. -/
def processFrameSync (chatSessionId correlationId : String) (hasCallback : Bool)
    (s : SyncState) : Frame → SyncStep
  | .ack a =>
      if a.session_id ≠ chatSessionId then .next s
      else if a.correlation_id = correlationId then
        .next { s with request_id := some a.message_id }
      else .next s
  | .resp r =>
      if r.t = "ca" then
        if r.session_id ≠ chatSessionId ∨ s.request_id ≠ some r.reply_to_id then
          .next s
        else
          let m : ChatMessage :=
            { id := r.message_id, content := r.body, reply_to := some r.reply_to_id,
              votes := 0, type_list := [] }
          if hasCallback then .done none { s with events := s.events ++ [.onFinalMsg m] }
          else .done (some m) s
      else if r.t = "cp" then
        if hasCallback then
          if r.session_id ≠ chatSessionId ∨ s.request_id ≠ some r.reply_to_id then
            .next s
          else
            .next { s with events := s.events ++
              [.onPartialMsg { id := r.message_id, content := r.body,
                               reply_to := some r.reply_to_id }] }
        else .next s
      else if r.t = "ce" then
        if r.session_id ≠ chatSessionId ∨ s.request_id ≠ some r.reply_to_id then
          .next s
        else .fail ("Remote error: " ++ r.error) s
      else .next s

/-- The receive loop of the synchronous `Session.query` over a list of
decoded frames; an exhausted list means the call is still waiting. -/
def runQuerySync (chatSessionId correlationId : String) (hasCallback : Bool) :
    SyncState → List Frame → SyncStep
  | s, [] => .next s
  | s, f :: fs =>
      match processFrameSync chatSessionId correlationId hasCallback s f with
      | .next s2 => runQuerySync chatSessionId correlationId hasCallback s2 fs
      | r => r

/-- `session_async._QueryInfo`; the callback object is modelled by
`hasCallback` together with the list of messages it has been invoked
with so far. -/
structure QueryInfo where
  correlation_id : String
  hasCallback : Bool
  query_id : Option String
  message_id : Option String
  done : Bool
  message : Option ChatMessage
  callbackEvents : List ChatMessage
deriving DecidableEq

/-- `_QueryInfo.__init__`. -/
def newQueryInfo (cid : String) (hasCallback : Bool) : QueryInfo :=
  { correlation_id := cid, hasCallback := hasCallback, query_id := none,
    message_id := none, done := false, message := none, callbackEvents := [] }

/-- The `SessionError`s raised inside `SessionAsync._poll` and its helpers,
carrying the data the corresponding exception message is built from. -/
inductive PollError where
  | foreignSession (got expected : String)
  | remoteError (error : String)
  | invalidType (t : String)
  | unexpectedAck (correlation_id : String) (expected : List String)
  | unexpectedResponse (r : ChatResponse)
deriving DecidableEq

/-- Helper for `_process_acknowledgment`: set `query_id` on the first
in-flight record whose correlation id matches; `none` when no record does. -/
def setQueryId (cid mid : String) : List QueryInfo → Option (List QueryInfo)
  | [] => none
  | m :: ms =>
      if m.correlation_id = cid then some ({ m with query_id := some mid } :: ms)
      else (setQueryId cid mid ms).map (m :: ·)

/-- `SessionAsync._process_acknowledgment` (session_async.py 236-245). -/
def processAcknowledgment (msgs : List QueryInfo) (res : ChatAcknowledgement) :
    Except PollError (List QueryInfo) :=
  match setQueryId res.correlation_id res.message_id msgs with
  | some msgs2 => .ok msgs2
  | none => .error (.unexpectedAck res.correlation_id (msgs.map QueryInfo.correlation_id))

/-- The matching condition of `_process_response_or_partial_response`:
`msg.query_id == res.reply_to_id or msg.message_id == res.message_id`
(an unset optional id never equals a string). -/
def respMatches (res : ChatResponse) (m : QueryInfo) : Prop :=
  m.query_id = some res.reply_to_id ∨ m.message_id = some res.message_id

instance (res : ChatResponse) (m : QueryInfo) : Decidable (respMatches res m) :=
  inferInstanceAs (Decidable (_ ∨ _))

/-- The per-record update of `_process_response_or_partial_response`
(session_async.py 259-275): record the message id, create the message on
first contact (empty content, `reply_to` from the acked query id), fill a
missing id, overwrite the content with the body of this frame, invoke the
callback with the current message, and mark done on a terminal `ca`. -/
def applyResponse (res : ChatResponse) (m : QueryInfo) : QueryInfo :=
  let msg0 : ChatMessage :=
    match m.message with
    | none =>
        { id := res.message_id, content := "", reply_to := m.query_id,
          votes := 0, type_list := [] }
    | some old => if old.id = "" then { old with id := res.message_id } else old
  let msg : ChatMessage := { msg0 with content := res.body }
  { m with message_id := some res.message_id,
           message := some msg,
           callbackEvents :=
             if m.hasCallback then m.callbackEvents ++ [msg] else m.callbackEvents,
           done := if res.t = "ca" then true else m.done }

/-- Apply `applyResponse` to the first record matched by id; `none` when
no record matches. -/
def updateFirstMatch (res : ChatResponse) : List QueryInfo → Option (List QueryInfo)
  | [] => none
  | m :: ms =>
      if respMatches res m then some (applyResponse res m :: ms)
      else (updateFirstMatch res ms).map (m :: ·)

/-- `SessionAsync._process_response_or_partial_response`
(session_async.py 247-275): match by id, fall back to the sole in-flight
record when exactly one exists, otherwise raise. -/
def processResponseOrPartialResponse (msgs : List QueryInfo) (res : ChatResponse) :
    Except PollError (List QueryInfo) :=
  match updateFirstMatch res msgs with
  | some msgs2 => .ok msgs2
  | none =>
      match msgs with
      | [only] => .ok [applyResponse res only]
      | _ => .error (.unexpectedResponse res)

/-- One line of `SessionAsync._poll` (session_async.py 219-234): frames for
a foreign session id raise, then dispatch on the tag. -/
def processLine (chatSessionId : String) (msgs : List QueryInfo) (f : Frame) :
    Except PollError (List QueryInfo) :=
  if f.sessionId ≠ chatSessionId then
    .error (.foreignSession f.sessionId chatSessionId)
  else
    match f with
    | .ack a => processAcknowledgment msgs a
    | .resp r =>
        if r.t = "ca" ∨ r.t = "cp" then processResponseOrPartialResponse msgs r
        else if r.t = "ce" then .error (.remoteError r.error)
        else .error (.invalidType r.t)

/-- `SessionAsync._poll` over the decoded lines of transport messages. -/
def pollLines (chatSessionId : String) (msgs : List QueryInfo) :
    List Frame → Except PollError (List QueryInfo)
  | [] => .ok msgs
  | f :: fs =>
      match processLine chatSessionId msgs f with
      | .ok msgs2 => pollLines chatSessionId msgs2 fs
      | .error e => .error e

/-- Look up the in-flight record of a query by its correlation id
(correlation ids are fresh uuid4 values, unique per call). -/
def findInfo (cid : String) (msgs : List QueryInfo) : Option QueryInfo :=
  msgs.find? (fun m => m.correlation_id == cid)

/-- The `info.done` loop condition of `send_recv_query`. -/
def infoDone (cid : String) (msgs : List QueryInfo) : Bool :=
  match findInfo cid msgs with
  | some m => m.done
  | none => false

/-- The `info.message` read out after the loop of `send_recv_query`. -/
def infoMessage (cid : String) (msgs : List QueryInfo) : Option ChatMessage :=
  match findInfo cid msgs with
  | some m => m.message
  | none => none

/-- `del self._messages[self._messages.index(info)]`, keyed by the
correlation id of the record: remove the first matching record. -/
def removeInfo (cid : String) : List QueryInfo → List QueryInfo
  | [] => []
  | m :: ms => if m.correlation_id = cid then ms else m :: removeInfo cid ms

/-- How one `SessionAsync.query` call resolves: success returns
`info.message`, a `SessionError` escaping `_poll` fails the call, and an
exhausted frame script while the query is still pending models the local
deadline (`asyncio.wait_for` cancels `send_recv_query` mid-await). -/
inductive QueryOutcome where
  | success (m : Option ChatMessage)
  | failed (e : PollError)
  | timedOut
deriving DecidableEq

/-- The `while not info.done` loop of `send_recv_query`
(session_async.py 208-212), consuming one decoded frame per poll step.
On success the record is pruned; an exception or cancellation leaves the
tracking list exactly as it was (there is no try/finally around the
`del`). -/
def queryLoop (chatSessionId cid : String) :
    List Frame → List QueryInfo → QueryOutcome × List QueryInfo
  | [], msgs =>
      if infoDone cid msgs then (.success (infoMessage cid msgs), removeInfo cid msgs)
      else (.timedOut, msgs)
  | f :: fs, msgs =>
      if infoDone cid msgs then (.success (infoMessage cid msgs), removeInfo cid msgs)
      else
        match processLine chatSessionId msgs f with
        | .error e => (.failed e, msgs)
        | .ok msgs2 => queryLoop chatSessionId cid fs msgs2

/-- `SessionAsync.query` / `send_recv_query` (session_async.py 204-214):
append a fresh in-flight record, then poll until it is done. -/
def sendRecvQuery (chatSessionId cid : String) (hasCallback : Bool)
    (msgs : List QueryInfo) (script : List Frame) : QueryOutcome × List QueryInfo :=
  queryLoop chatSessionId cid script (msgs ++ [newQueryInfo cid hasCallback])

/-- The fields of `types.Job` read by `H2OGPTE._wait`. -/
structure JobView where
  progress : ℚ
  completed : Bool
  canceled : Bool
  kind : String
deriving DecidableEq

/-- `H2OGPTE.INITIAL_WAIT_INTERVAL`. -/
def INITIAL_WAIT_INTERVAL : ℚ := 1/10

/-- `H2OGPTE.MAX_WAIT_INTERVAL`. -/
def MAX_WAIT_INTERVAL : ℚ := 1

/-- `H2OGPTE.WAIT_BACKOFF_FACTOR`. -/
def WAIT_BACKOFF_FACTOR : ℚ := 7/5

/-- The sleep interval sequence of `_wait`: `dt` starts at 0.1 and is
updated to `min(MAX_WAIT_INTERVAL, dt * WAIT_BACKOFF_FACTOR)` after every
poll (h2ogpte.py 222, 238). -/
def waitInterval : ℕ → ℚ
  | 0 => INITIAL_WAIT_INTERVAL
  | i + 1 => min MAX_WAIT_INTERVAL (waitInterval i * WAIT_BACKOFF_FACTOR)

/-- The message of the `TimeoutError` raised by `_wait`
(h2ogpte.py 230-232). -/
def timeoutMessage (kind jobId : String) (timeout : ℚ) : String :=
  "Job " ++ kind ++ " (" ++ jobId ++ ") timed out after " ++ toString timeout
    ++ " seconds"

/-- How one run of `_wait` over a finite poll schedule ends: the job
reported completed or canceled, the inactivity `TimeoutError` was raised,
or the schedule ran out while the job was still being polled. -/
inductive WaitResult where
  | finished (j : JobView)
  | timedOut (msg : String)
  | pending
deriving DecidableEq

/-- The polling loop of `H2OGPTE._wait` (h2ogpte.py 223-238) over an
explicit schedule of (poll time, observed job) pairs; `lastJob` and
`deadline` are the `last_job`/`deadline` loop variables. -/
def waitLoop (timeout : ℚ) (jobId : String) :
    List (ℚ × JobView) → Option JobView → ℚ → WaitResult
  | [], _, _ => .pending
  | (t, job) :: rest, lastJob, deadline =>
      if job.completed || job.canceled then .finished job
      else
        match lastJob with
        | some lj =>
            if lj.progress = job.progress then
              if t > deadline then .timedOut (timeoutMessage job.kind jobId timeout)
              else waitLoop timeout jobId rest lastJob deadline
            else waitLoop timeout jobId rest (some job) (t + timeout)
        | none => waitLoop timeout jobId rest (some job) (t + timeout)

/-- `H2OGPTE._wait` from its entry point: `deadline = time.time() + timeout`
and `last_job = None` before the first poll. -/
def waitFromStart (timeout : ℚ) (jobId : String) (startTime : ℚ)
    (polls : List (ℚ × JobView)) : WaitResult :=
  waitLoop timeout jobId polls none (startTime + timeout)

/-- The `ssl` verify modes relevant to `Session.connect`. -/
inductive VerifyMode where
  | certNone
  | certRequired
deriving DecidableEq

/-- The slice of `ssl.SSLContext` state set by `Session.connect`. -/
structure SSLContextModel where
  verify_mode : VerifyMode
deriving DecidableEq

/-- The scheme swap of `Session.__init__` (session.py 74):
`https` becomes `wss`, anything else becomes `ws`. -/
def sessionScheme (urlScheme : String) : String :=
  if urlScheme = "https" then "wss" else "ws"

/-- `Session.connect` (session.py 99-104): for a secure endpoint it builds
an `SSLContext` and sets `verify_mode = ssl.CERT_NONE`; for a plain one it
passes no context.  `connect` takes no parameter that could change this. -/
def connectSslContext (urlScheme : String) : Option SSLContextModel :=
  if sessionScheme urlScheme = "wss" then some { verify_mode := .certNone } else none

/-- The frame sequence of Scenario A: ack, two partials, terminal response. -/
def scenarioAFrames : List Frame :=
  [.ack ⟨"s1", "c1", "m1"⟩,
   .resp ⟨"cp", "s1", "m1", "m1", "Hel", ""⟩,
   .resp ⟨"cp", "s1", "m1", "m1", "Hello", ""⟩,
   .resp ⟨"ca", "s1", "m1", "m1", "Hello world", ""⟩]

/-- The expected final in-flight record after Scenario A in the
concurrent variant. -/
def scenarioAResolved : QueryInfo :=
  { correlation_id := "c1", hasCallback := false, query_id := some "m1",
    message_id := some "m1", done := true,
    message := some { id := "m1", content := "Hello world", reply_to := some "m1",
                      votes := 0, type_list := [] },
    callbackEvents := [] }

/-! Theorems. -/

theorem waitInterval_pos (i : ℕ) : 0 < waitInterval i := by
  induction i with
  | zero => norm_num [waitInterval, INITIAL_WAIT_INTERVAL]
  | succ n ih =>
      rw [waitInterval]
      have hf : (0:ℚ) < WAIT_BACKOFF_FACTOR := by norm_num [WAIT_BACKOFF_FACTOR]
      have hm : (0:ℚ) < MAX_WAIT_INTERVAL := by norm_num [MAX_WAIT_INTERVAL]
      exact lt_min hm (mul_pos ih hf)

theorem waitInterval_le_one (i : ℕ) : waitInterval i ≤ 1 := by
  cases i with
  | zero => norm_num [waitInterval, INITIAL_WAIT_INTERVAL]
  | succ n =>
      rw [waitInterval]
      have := min_le_left MAX_WAIT_INTERVAL (waitInterval n * WAIT_BACKOFF_FACTOR)
      simpa [MAX_WAIT_INTERVAL] using this

/-- C4: the job waiter's sleep interval sequence starts at 0.1 seconds and
satisfies interval[i+1] = min(1.0, interval[i]*1.4) for every iteration; it
is non-decreasing, and once it reaches the 1.0-second cap it stays at 1.0. -/
theorem wait_backoff_interval :
    waitInterval 0 = 1/10 ∧
    (∀ i, waitInterval (i + 1) = min 1 (waitInterval i * (7/5))) ∧
    (∀ i, waitInterval i ≤ waitInterval (i + 1)) ∧
    (∀ i, waitInterval i = 1 → waitInterval (i + 1) = 1) := by
  refine ⟨rfl, fun i => rfl, fun i => ?_, fun i h => ?_⟩
  · rw [waitInterval]
    refine le_min ?_ ?_
    · simpa [MAX_WAIT_INTERVAL] using waitInterval_le_one i
    · have h0 := (waitInterval_pos i).le
      have h1 : (1:ℚ) ≤ WAIT_BACKOFF_FACTOR := by norm_num [WAIT_BACKOFF_FACTOR]
      exact le_mul_of_one_le_right h0 h1
  · rw [waitInterval, h]
    norm_num [MAX_WAIT_INTERVAL, WAIT_BACKOFF_FACTOR, min_def]

/-- Witness for `wait_backoff_interval`: the interval reaches the cap at
index 7 and stays there. -/
theorem wait_backoff_interval_witness : waitInterval 7 = 1 ∧ waitInterval 8 = 1 := by
  have h7 : waitInterval 7 = 1 := by
    norm_num [waitInterval, INITIAL_WAIT_INTERVAL, MAX_WAIT_INTERVAL,
      WAIT_BACKOFF_FACTOR, min_def]
  exact ⟨h7, wait_backoff_interval.2.2.2 7 h7⟩

theorem waitLoop_no_timeout (timeout T : ℚ) (jobId : String) (prog : ℚ → ℚ)
    (hTt : T < timeout)
    (hmono : ∀ a b : ℚ, a ≤ b → prog a ≤ prog b)
    (hchg : ∀ t : ℚ, prog t < prog (t + T)) :
    ∀ (polls : List (ℚ × JobView)) (lastJob : Option JobView) (deadline : ℚ),
      (∀ p ∈ polls, (p.2).progress = prog p.1) →
      (∀ lj, lastJob = some lj → ∃ tr, lj.progress = prog tr ∧ deadline = tr + timeout) →
      ∀ msg, waitLoop timeout jobId polls lastJob deadline ≠ .timedOut msg := by
  intro polls
  induction polls with
  | nil =>
      intro lastJob deadline _ _ msg h
      exact WaitResult.noConfusion h
  | cons q rest ih =>
      obtain ⟨t, job⟩ := q
      intro lastJob deadline hpolls hinv msg h
      have hjob : job.progress = prog t := hpolls (t, job) (List.mem_cons_self _ _)
      have hrest : ∀ p ∈ rest, (p.2).progress = prog p.1 :=
        fun p hp => hpolls p (List.mem_cons_of_mem _ hp)
      by_cases hc : (job.completed || job.canceled) = true
      · simp only [waitLoop, hc, if_true] at h
        exact WaitResult.noConfusion h
      · cases lastJob with
        | none =>
            simp only [waitLoop, hc, if_false, Bool.false_eq_true] at h
            exact ih (some job) (t + timeout) hrest
              (fun lj hlj => by
                obtain rfl := Option.some.inj hlj
                exact ⟨t, hjob, rfl⟩) msg h
        | some lj =>
            by_cases hp : lj.progress = job.progress
            · by_cases ht : t > deadline
              · obtain ⟨tr, hljr, hdl⟩ := hinv lj rfl
                have h1 : tr + T < t := by rw [hdl] at ht; linarith
                have h2 : prog (tr + T) ≤ prog t := hmono _ _ h1.le
                have h3 : prog tr < prog t := lt_of_lt_of_le (hchg tr) h2
                rw [hljr, hjob] at hp
                exact absurd hp (ne_of_lt h3)
              · simp only [waitLoop, hc, if_false, Bool.false_eq_true, hp, if_true,
                  ht] at h
                exact ih (some lj) deadline hrest hinv msg h
            · simp only [waitLoop, hc, if_false, Bool.false_eq_true, hp] at h
              exact ih (some job) (t + timeout) hrest
                (fun lj2 hlj2 => by
                  obtain rfl := Option.some.inj hlj2
                  exact ⟨t, hjob, rfl⟩) msg h

theorem waitLoop_frozen (timeout : ℚ) (jobId kind : String) (p : ℚ) :
    ∀ (rest : List (ℚ × JobView)) (lj : JobView) (deadline : ℚ),
      lj.progress = p →
      (∀ q ∈ rest, (q.2).progress = p ∧ (q.2).completed = false ∧
        (q.2).canceled = false ∧ (q.2).kind = kind) →
      (∃ q ∈ rest, q.1 > deadline) →
      waitLoop timeout jobId rest (some lj) deadline =
        .timedOut (timeoutMessage kind jobId timeout) := by
  intro rest
  induction rest with
  | nil =>
      intro lj deadline _ _ hex
      rcases hex with ⟨q, hq, _⟩
      exact absurd hq (List.not_mem_nil q)
  | cons q rest ih =>
      obtain ⟨t, job⟩ := q
      intro lj deadline hlj hall hex
      obtain ⟨hprog0, hcomp0, hcanc0, hkind0⟩ := hall (t, job) (List.mem_cons_self _ _)
      have hprog : job.progress = p := hprog0
      have hcomp : job.completed = false := hcomp0
      have hcanc : job.canceled = false := hcanc0
      have hkind : job.kind = kind := hkind0
      by_cases ht : t > deadline
      · simp [waitLoop, hcomp, hcanc, hlj, hprog, ht, hkind]
      · simp only [waitLoop, hcomp, hcanc, Bool.or_self, Bool.false_eq_true, if_false,
          hlj, hprog, if_true, ht]
        refine ih lj deadline hlj (fun q hq => hall q (List.mem_cons_of_mem _ hq)) ?_
        rcases hex with ⟨q2, hq2, hq2t⟩
        rcases List.mem_cons.mp hq2 with rfl | hq2r
        · exact absurd hq2t ht
        · exact ⟨q2, hq2r, hq2t⟩

/-- C3: the job waiter's timeout is an inactivity timeout.  (i) When the
observed progress differs from the last recorded one, the deadline is
reset to now + timeout.  (ii) A job whose progress strictly increases in
every window of length T < timeout never produces a TimeoutError, however
long the schedule.  (iii) A job whose progress is frozen produces a
TimeoutError as soon as a poll happens past the deadline set at the first
poll, and the error message names the job kind and id. -/
theorem wait_inactivity_timeout :
    (∀ (timeout : ℚ) (jobId : String) (t deadline : ℚ) (job lj : JobView)
        (rest : List (ℚ × JobView)),
        job.completed = false → job.canceled = false →
        lj.progress ≠ job.progress →
        waitLoop timeout jobId ((t, job) :: rest) (some lj) deadline =
          waitLoop timeout jobId rest (some job) (t + timeout)) ∧
    (∀ (timeout T : ℚ) (jobId : String) (startTime : ℚ) (prog : ℚ → ℚ)
        (polls : List (ℚ × JobView)),
        T < timeout →
        (∀ a b : ℚ, a ≤ b → prog a ≤ prog b) →
        (∀ t : ℚ, prog t < prog (t + T)) →
        (∀ p ∈ polls, (p.2).progress = prog p.1) →
        ∀ msg, waitFromStart timeout jobId startTime polls ≠ .timedOut msg) ∧
    (∀ (timeout : ℚ) (jobId kind : String) (startTime t0 : ℚ) (j0 : JobView)
        (rest : List (ℚ × JobView)),
        j0.completed = false → j0.canceled = false → j0.kind = kind →
        (∀ q ∈ rest, (q.2).progress = j0.progress ∧ (q.2).completed = false ∧
          (q.2).canceled = false ∧ (q.2).kind = kind) →
        (∃ q ∈ rest, q.1 > t0 + timeout) →
        waitFromStart timeout jobId startTime ((t0, j0) :: rest) =
          .timedOut (timeoutMessage kind jobId timeout) ∧
        timeoutMessage kind jobId timeout =
          "Job " ++ kind ++ " (" ++ jobId ++ ") timed out after " ++ toString timeout
            ++ " seconds") := by
  refine ⟨?_, ?_, ?_⟩
  · intro timeout jobId t deadline job lj rest hcomp hcanc hne
    simp [waitLoop, hcomp, hcanc, hne]
  · intro timeout T jobId startTime prog polls hTt hmono hchg hpolls msg
    exact waitLoop_no_timeout timeout T jobId prog hTt hmono hchg polls none
      (startTime + timeout) hpolls (fun lj hlj => Option.noConfusion hlj) msg
  · intro timeout jobId kind startTime t0 j0 rest hcomp hcanc hkind hall hex
    refine ⟨?_, rfl⟩
    show waitLoop timeout jobId ((t0, j0) :: rest) none (startTime + timeout) = _
    simp only [waitLoop, hcomp, hcanc, Bool.or_self, Bool.false_eq_true, if_false]
    exact waitLoop_frozen timeout jobId kind j0.progress rest j0 (t0 + timeout) rfl
      hall hex

/-- Witness for `wait_inactivity_timeout` at concrete schedules. -/
theorem wait_inactivity_timeout_witness :
    (waitLoop 1 "j" [((0:ℚ), ⟨1, false, false, "k"⟩)] (some ⟨0, false, false, "k"⟩) 5 =
      waitLoop 1 "j" [] (some ⟨1, false, false, "k"⟩) (0 + 1)) ∧
    (waitFromStart 2 "j" 0
      [((0:ℚ), ⟨0, false, false, "k"⟩), (100, ⟨100, false, false, "k"⟩)] ≠
      .timedOut "x") ∧
    (waitFromStart 1 "j1" 0
      [((0:ℚ), ⟨0, false, false, "ingest"⟩), (3, ⟨0, false, false, "ingest"⟩)] =
      .timedOut (timeoutMessage "ingest" "j1" 1)) := by
  refine ⟨?_, ?_, ?_⟩
  · exact wait_inactivity_timeout.1 1 "j" 0 5 ⟨1, false, false, "k"⟩
      ⟨0, false, false, "k"⟩ [] rfl rfl (by norm_num)
  · refine wait_inactivity_timeout.2.1 2 1 "j" 0 (fun t => t) _ (by norm_num)
      (fun a b h => h) (fun t => by show t < t + 1; linarith) ?_ "x"
    intro p hp
    fin_cases hp <;> norm_num
  · refine (wait_inactivity_timeout.2.2 1 "j1" "ingest" 0 0 ⟨0, false, false, "ingest"⟩
      [(3, ⟨0, false, false, "ingest"⟩)] rfl rfl rfl ?_ ?_).1
    · intro q hq
      fin_cases hq <;> norm_num
    · refine ⟨(3, ⟨0, false, false, "ingest"⟩), by simp, by norm_num⟩

/-- C1: a PartialResponse or Response overwrites the tracked content with
the body of that frame (never appends), so after the terminal Response of
Scenario A the result content is exactly "Hello world" in both variants. -/
theorem scenarioA_overwrite :
    (∀ (res : ChatResponse) (m : QueryInfo),
        (applyResponse res m).message.map ChatMessage.content = some res.body) ∧
    pollLines "s1" [newQueryInfo "c1" false] scenarioAFrames =
      .ok [scenarioAResolved] ∧
    runQuerySync "s1" "c1" false { request_id := none, events := [] } scenarioAFrames =
      .done (some { id := "m1", content := "Hello world", reply_to := some "m1",
                    votes := 0, type_list := [] })
        { request_id := some "m1", events := [] } :=
  ⟨fun res m => rfl, by rfl, by decide⟩

/-- C2: with two concurrent queries whose acks arrive out of order, a
Response with reply_to_id = m1 resolves the query that issued c1 (whose
acked query id is m1) and leaves the query that issued c2 pending. -/
theorem scenarioB_out_of_order_acks (sid c1 c2 m1 m2 body : String)
    (h12 : c1 ≠ c2) (hm : m1 ≠ m2) :
    pollLines sid [newQueryInfo c1 false, newQueryInfo c2 false]
      [.ack ⟨sid, c2, m2⟩, .ack ⟨sid, c1, m1⟩, .resp ⟨"ca", sid, m1, m1, body, ""⟩] =
    .ok [{ correlation_id := c1, hasCallback := false, query_id := some m1,
           message_id := some m1, done := true,
           message := some { id := m1, content := body, reply_to := some m1,
                             votes := 0, type_list := [] },
           callbackEvents := [] },
         { correlation_id := c2, hasCallback := false, query_id := some m2,
           message_id := none, done := false, message := none,
           callbackEvents := [] }] := by
  simp [pollLines, processLine, Frame.sessionId, processAcknowledgment, setQueryId,
        processResponseOrPartialResponse, updateFirstMatch, respMatches, applyResponse,
        newQueryInfo, h12, Ne.symm h12, hm, Ne.symm hm]

/-- Witness for `scenarioB_out_of_order_acks` at concrete ids. -/
theorem scenarioB_out_of_order_acks_witness :
    pollLines "s" [newQueryInfo "c1" false, newQueryInfo "c2" false]
      [.ack ⟨"s", "c2", "m2"⟩, .ack ⟨"s", "c1", "m1"⟩,
       .resp ⟨"ca", "s", "m1", "m1", "b", ""⟩] =
    .ok [{ correlation_id := "c1", hasCallback := false, query_id := some "m1",
           message_id := some "m1", done := true,
           message := some { id := "m1", content := "b", reply_to := some "m1",
                             votes := 0, type_list := [] },
           callbackEvents := [] },
         { correlation_id := "c2", hasCallback := false, query_id := some "m2",
           message_id := none, done := false, message := none,
           callbackEvents := [] }] :=
  scenarioB_out_of_order_acks "s" "c1" "c2" "m1" "m2" "b" (by decide) (by decide)

theorem setQueryId_eq_none (cid mid : String) (msgs : List QueryInfo) :
    setQueryId cid mid msgs = none ↔ ∀ m ∈ msgs, m.correlation_id ≠ cid := by
  induction msgs with
  | nil => simp [setQueryId]
  | cons m ms ih =>
      by_cases h : m.correlation_id = cid
      · simp [setQueryId, h]
      · simp [setQueryId, h, Option.map_eq_none', ih]

theorem updateFirstMatch_eq_none (res : ChatResponse) (msgs : List QueryInfo) :
    updateFirstMatch res msgs = none ↔ ∀ m ∈ msgs, ¬ respMatches res m := by
  induction msgs with
  | nil => simp [updateFirstMatch]
  | cons m ms ih =>
      by_cases h : respMatches res m
      · simp [updateFirstMatch, h]
      · simp [updateFirstMatch, h, Option.map_eq_none', ih]

/-- C5: the sole-in-flight fallback of the response dispatcher is taken
exactly when one query is in flight; with no match and two or more
in-flight queries a SessionError carrying the offending response is
raised, and an unmatched ack raises a SessionError naming the unexpected
correlation id and the correlation ids currently expected. -/
theorem fallback_unique_inflight :
    (∀ (res : ChatResponse) (only : QueryInfo),
        ¬ respMatches res only →
        processResponseOrPartialResponse [only] res = .ok [applyResponse res only]) ∧
    (∀ (res : ChatResponse) (msgs : List QueryInfo),
        (∀ m ∈ msgs, ¬ respMatches res m) → 2 ≤ msgs.length →
        processResponseOrPartialResponse msgs res = .error (.unexpectedResponse res)) ∧
    (∀ (a : ChatAcknowledgement) (msgs : List QueryInfo),
        (∀ m ∈ msgs, m.correlation_id ≠ a.correlation_id) →
        processAcknowledgment msgs a =
          .error (.unexpectedAck a.correlation_id (msgs.map QueryInfo.correlation_id))) := by
  refine ⟨?_, ?_, ?_⟩
  · intro res only h
    simp [processResponseOrPartialResponse, updateFirstMatch, h]
  · intro res msgs hnm hlen
    have h0 : updateFirstMatch res msgs = none := (updateFirstMatch_eq_none res msgs).mpr hnm
    rcases msgs with _ | ⟨a, _ | ⟨b, t⟩⟩
    · simp at hlen
    · simp at hlen
    · simp [processResponseOrPartialResponse, h0]
  · intro a msgs h
    have h0 : setQueryId a.correlation_id a.message_id msgs = none :=
      (setQueryId_eq_none _ _ msgs).mpr h
    simp [processAcknowledgment, h0]

/-- Witness for `fallback_unique_inflight` at concrete records. -/
theorem fallback_unique_inflight_witness :
    processResponseOrPartialResponse [newQueryInfo "c" false]
      ⟨"cp", "s", "mX", "rX", "b", ""⟩ =
      .ok [applyResponse ⟨"cp", "s", "mX", "rX", "b", ""⟩ (newQueryInfo "c" false)] ∧
    processResponseOrPartialResponse [newQueryInfo "c" false, newQueryInfo "d" false]
      ⟨"cp", "s", "mX", "rX", "b", ""⟩ =
      .error (.unexpectedResponse ⟨"cp", "s", "mX", "rX", "b", ""⟩) ∧
    processAcknowledgment [newQueryInfo "c" false, newQueryInfo "d" false]
      ⟨"s", "cZ", "mZ"⟩ =
      .error (.unexpectedAck "cZ" ["c", "d"]) := by
  refine ⟨fallback_unique_inflight.1 _ _ (by decide), ?_, ?_⟩
  · exact fallback_unique_inflight.2.1 _ _ (by decide) (by decide)
  · exact fallback_unique_inflight.2.2 ⟨"s", "cZ", "mZ"⟩ _ (by decide)

/-- C6 counterexample: in the synchronous variant, Scenario C terminates
the call with a SessionError whose message is "Remote error: LLM timeout",
which is not exactly the server-supplied text "LLM timeout". -/
theorem error_text_counterexample :
    runQuerySync "s1" "c1" false { request_id := none, events := [] }
      [.ack ⟨"s1", "c1", "m1"⟩, .resp ⟨"ce", "s1", "", "m1", "", "LLM timeout"⟩] =
      .fail "Remote error: LLM timeout" { request_id := some "m1", events := [] } ∧
    "Remote error: LLM timeout" ≠ "LLM timeout" :=
  ⟨by decide, by decide⟩

/-- C6 amended: a matching ErrorFrame terminates the synchronous query
call with a SessionError whose message is "Remote error: " followed by the
server-supplied text, while the concurrent variant's poll raises a
SessionError carrying exactly the server-supplied text; in both variants
the call ends in failure, so no previously received partial content is
delivered as the final result. -/
theorem error_frame_session_error :
    (∀ (sid cid : String) (cb : Bool) (s : SyncState) (r : ChatResponse),
        r.t = "ce" → r.session_id = sid → s.request_id = some r.reply_to_id →
        processFrameSync sid cid cb s (.resp r) = .fail ("Remote error: " ++ r.error) s) ∧
    (∀ (sid : String) (msgs : List QueryInfo) (r : ChatResponse),
        r.t = "ce" → r.session_id = sid →
        processLine sid msgs (.resp r) = .error (.remoteError r.error)) ∧
    (∀ (sid cid : String) (msgs : List QueryInfo) (f : Frame) (fs : List Frame)
        (e : PollError),
        infoDone cid msgs = false → processLine sid msgs f = .error e →
        queryLoop sid cid (f :: fs) msgs = (.failed e, msgs)) := by
  refine ⟨?_, ?_, ?_⟩
  · intro sid cid cb s r ht hs hr
    simp [processFrameSync, ht, hs, hr]
  · intro sid msgs r ht hs
    simp [processLine, Frame.sessionId, ht, hs]
  · intro sid cid msgs f fs e hd he
    simp [queryLoop, hd, he]

/-- Witness for `error_frame_session_error` at a concrete error frame. -/
theorem error_frame_session_error_witness :
    processFrameSync "s1" "c1" false { request_id := some "m1", events := [] }
      (.resp ⟨"ce", "s1", "", "m1", "", "LLM timeout"⟩) =
      .fail ("Remote error: " ++ "LLM timeout") { request_id := some "m1", events := [] } ∧
    processLine "s1" [newQueryInfo "c1" false]
      (.resp ⟨"ce", "s1", "", "m1", "", "LLM timeout"⟩) =
      .error (.remoteError "LLM timeout") ∧
    queryLoop "s1" "c1" [.resp ⟨"ce", "s1", "", "m1", "", "LLM timeout"⟩]
      [newQueryInfo "c1" false] =
      (.failed (.remoteError "LLM timeout"), [newQueryInfo "c1" false]) := by
  refine ⟨?_, ?_, ?_⟩
  · exact error_frame_session_error.1 "s1" "c1" false _ _ rfl rfl rfl
  · exact error_frame_session_error.2.1 "s1" _ _ rfl rfl
  · exact error_frame_session_error.2.2 "s1" "c1" _ _ [] _ (by decide)
      (error_frame_session_error.2.1 "s1" _ _ rfl rfl)

/-- C7: a frame whose session id differs from the session's own is
silently skipped by the synchronous variant (state unchanged, the loop
keeps waiting), while the concurrent variant's poll raises a SessionError
naming the received and the expected session ids. -/
theorem foreign_session_divergence (sid cid : String) (cb : Bool) (s : SyncState)
    (msgs : List QueryInfo) (f : Frame) (h : f.sessionId ≠ sid) :
    processFrameSync sid cid cb s f = .next s ∧
    processLine sid msgs f = .error (.foreignSession f.sessionId sid) := by
  constructor
  · rcases f with a | r
    · simp only [Frame.sessionId] at h
      simp [processFrameSync, h]
    · simp only [Frame.sessionId] at h
      by_cases h1 : r.t = "ca" <;> by_cases h2 : r.t = "cp" <;> by_cases h3 : r.t = "ce" <;>
        cases cb <;> simp_all [processFrameSync]
  · simp [processLine, h]

/-- Witness for `foreign_session_divergence` at a concrete foreign frame. -/
theorem foreign_session_divergence_witness :
    processFrameSync "mine" "c1" true { request_id := some "m1", events := [] }
      (.resp ⟨"ca", "other", "m1", "m1", "b", ""⟩) =
      .next { request_id := some "m1", events := [] } ∧
    processLine "mine" [newQueryInfo "c1" false]
      (.resp ⟨"ca", "other", "m1", "m1", "b", ""⟩) =
      .error (.foreignSession "other" "mine") :=
  foreign_session_divergence "mine" "c1" true _ [newQueryInfo "c1" false] _ (by decide)

/-- C9: in the synchronous variant, with a callback the callback receives
each matching partial and the final message and `query` returns nothing;
without a callback `query` returns the final ChatMessage. -/
theorem callback_return_bifurcation (sid cid : String) (s : SyncState)
    (r : ChatResponse) (hs : r.session_id = sid)
    (hr : s.request_id = some r.reply_to_id) :
    (r.t = "cp" →
      processFrameSync sid cid true s (.resp r) =
        .next { s with events := s.events ++
          [.onPartialMsg { id := r.message_id, content := r.body,
                           reply_to := some r.reply_to_id }] }) ∧
    (r.t = "ca" →
      processFrameSync sid cid true s (.resp r) =
        .done none { s with events := s.events ++
          [.onFinalMsg { id := r.message_id, content := r.body,
                         reply_to := some r.reply_to_id, votes := 0,
                         type_list := [] }] }) ∧
    (r.t = "ca" →
      processFrameSync sid cid false s (.resp r) =
        .done (some { id := r.message_id, content := r.body,
                      reply_to := some r.reply_to_id, votes := 0,
                      type_list := [] }) s) := by
  refine ⟨fun ht => ?_, fun ht => ?_, fun ht => ?_⟩ <;>
    simp [processFrameSync, ht, hs, hr]

/-- Witness for `callback_return_bifurcation` at a concrete frame. -/
theorem callback_return_bifurcation_witness :
    processFrameSync "s1" "c1" true { request_id := some "m1", events := [] }
      (.resp ⟨"cp", "s1", "m1", "m1", "Hel", ""⟩) =
      .next { request_id := some "m1",
              events := [.onPartialMsg { id := "m1", content := "Hel",
                                         reply_to := some "m1" }] } ∧
    processFrameSync "s1" "c1" false { request_id := some "m1", events := [] }
      (.resp ⟨"ca", "s1", "m1", "m1", "Hello world", ""⟩) =
      .done (some { id := "m1", content := "Hello world", reply_to := some "m1",
                    votes := 0, type_list := [] })
        { request_id := some "m1", events := [] } := by
  constructor
  · have h := (callback_return_bifurcation "s1" "c1" { request_id := some "m1", events := [] }
      ⟨"cp", "s1", "m1", "m1", "Hel", ""⟩ rfl rfl).1 rfl
    simpa using h
  · exact (callback_return_bifurcation "s1" "c1" { request_id := some "m1", events := [] }
      ⟨"ca", "s1", "m1", "m1", "Hello world", ""⟩ rfl rfl).2.2 rfl

/-- C10: for every secure endpoint the synchronous `Session.connect`
builds an SSL context whose verify_mode is CERT_NONE — the server's TLS
certificate is never verified, and `connect` exposes no way to turn
verification on. -/
theorem ssl_cert_none :
    (∀ (scheme : String) (ctx : SSLContextModel),
        connectSslContext scheme = some ctx → ctx.verify_mode = .certNone) ∧
    connectSslContext "https" = some { verify_mode := .certNone } := by
  constructor
  · intro scheme ctx h
    unfold connectSslContext at h
    split at h
    · cases h
      rfl
    · cases h
  · rfl

/-- Witness for `ssl_cert_none` at the https scheme. -/
theorem ssl_cert_none_witness :
    connectSslContext "https" = some { verify_mode := .certNone } ∧
    SSLContextModel.verify_mode { verify_mode := .certNone } = .certNone :=
  ⟨ssl_cert_none.2, ssl_cert_none.1 "https" { verify_mode := .certNone } ssl_cert_none.2⟩

theorem applyResponse_cid (res : ChatResponse) (m : QueryInfo) :
    (applyResponse res m).correlation_id = m.correlation_id := rfl

theorem setQueryId_cids (cid mid : String) :
    ∀ (msgs msgs2 : List QueryInfo), setQueryId cid mid msgs = some msgs2 →
      msgs2.map QueryInfo.correlation_id = msgs.map QueryInfo.correlation_id := by
  intro msgs
  induction msgs with
  | nil => intro msgs2 h; simp [setQueryId] at h
  | cons m ms ih =>
      intro msgs2 h
      by_cases hc : m.correlation_id = cid
      · simp only [setQueryId, hc, if_true] at h
        obtain rfl := Option.some.inj h
        simp [hc]
      · simp only [setQueryId, hc, if_false] at h
        rw [Option.map_eq_some'] at h
        obtain ⟨a, ha, rfl⟩ := h
        simp [ih a ha]

theorem updateFirstMatch_cids (res : ChatResponse) :
    ∀ (msgs msgs2 : List QueryInfo), updateFirstMatch res msgs = some msgs2 →
      msgs2.map QueryInfo.correlation_id = msgs.map QueryInfo.correlation_id := by
  intro msgs
  induction msgs with
  | nil => intro msgs2 h; simp [updateFirstMatch] at h
  | cons m ms ih =>
      intro msgs2 h
      by_cases hc : respMatches res m
      · simp only [updateFirstMatch, hc, if_true] at h
        obtain rfl := Option.some.inj h
        simp [applyResponse_cid]
      · simp only [updateFirstMatch, hc, if_false] at h
        rw [Option.map_eq_some'] at h
        obtain ⟨a, ha, rfl⟩ := h
        simp [ih a ha]

theorem processResponseOrPartialResponse_cids (msgs msgs2 : List QueryInfo)
    (res : ChatResponse)
    (h : processResponseOrPartialResponse msgs res = .ok msgs2) :
    msgs2.map QueryInfo.correlation_id = msgs.map QueryInfo.correlation_id := by
  rcases he : updateFirstMatch res msgs with _ | m2
  · rcases msgs with _ | ⟨only, _ | ⟨b, t⟩⟩
    · simp [processResponseOrPartialResponse, he] at h
    · simp only [processResponseOrPartialResponse, he, Except.ok.injEq] at h
      subst h
      simp [applyResponse_cid]
    · simp [processResponseOrPartialResponse, he] at h
  · simp only [processResponseOrPartialResponse, he, Except.ok.injEq] at h
    subst h
    exact updateFirstMatch_cids res msgs m2 he

theorem processAcknowledgment_cids (msgs msgs2 : List QueryInfo)
    (a : ChatAcknowledgement)
    (h : processAcknowledgment msgs a = .ok msgs2) :
    msgs2.map QueryInfo.correlation_id = msgs.map QueryInfo.correlation_id := by
  rcases he : setQueryId a.correlation_id a.message_id msgs with _ | m2
  · simp [processAcknowledgment, he] at h
  · simp only [processAcknowledgment, he, Except.ok.injEq] at h
    subst h
    exact setQueryId_cids _ _ msgs m2 he

theorem processLine_cids (sid : String) (msgs msgs2 : List QueryInfo) (f : Frame)
    (h : processLine sid msgs f = .ok msgs2) :
    msgs2.map QueryInfo.correlation_id = msgs.map QueryInfo.correlation_id := by
  rcases f with a | r
  · by_cases hs : a.session_id = sid
    · simp [processLine, Frame.sessionId, hs] at h
      exact processAcknowledgment_cids msgs msgs2 a h
    · simp [processLine, Frame.sessionId, hs] at h
  · by_cases hs : r.session_id = sid
    · by_cases h1 : r.t = "ca" ∨ r.t = "cp"
      · simp [processLine, Frame.sessionId, hs, h1] at h
        exact processResponseOrPartialResponse_cids msgs msgs2 r h
      · by_cases h2 : r.t = "ce"
        · simp [processLine, Frame.sessionId, hs, h1, h2] at h
        · simp [processLine, Frame.sessionId, hs, h1, h2] at h
    · simp [processLine, Frame.sessionId, hs] at h

theorem removeInfo_map (cid : String) :
    ∀ (msgs : List QueryInfo) (A : List String),
      msgs.map QueryInfo.correlation_id = A ++ [cid] → cid ∉ A →
      (removeInfo cid msgs).map QueryInfo.correlation_id = A := by
  intro msgs
  induction msgs with
  | nil =>
      intro A hmap _
      exact absurd hmap (by simp)
  | cons m ms ih =>
      intro A hmap hA
      rcases A with _ | ⟨a, A2⟩
      · simp only [List.map_cons, List.nil_append, List.cons.injEq] at hmap
        obtain ⟨h1, h2⟩ := hmap
        have h3 : ms = [] := List.map_eq_nil_iff.mp h2
        subst h3
        simp [removeInfo, h1]
      · simp only [List.map_cons, List.cons_append, List.cons.injEq] at hmap
        obtain ⟨ha, hrest⟩ := hmap
        have hA2 : cid ∉ A2 := fun hx => hA (List.mem_cons_of_mem _ hx)
        have hane : a ≠ cid := fun hx => hA (by rw [hx]; exact List.mem_cons_self _ _)
        have hc : m.correlation_id ≠ cid := by rw [ha]; exact hane
        simp [removeInfo, hc, ha, hane, ih A2 hrest hA2]

theorem queryLoop_tracking (sid cid : String) (A : List String) (hA : cid ∉ A) :
    ∀ (script : List Frame) (msgs : List QueryInfo),
      msgs.map QueryInfo.correlation_id = A ++ [cid] →
      ((∀ m, (queryLoop sid cid script msgs).1 = .success m →
          cid ∉ (queryLoop sid cid script msgs).2.map QueryInfo.correlation_id) ∧
       ((queryLoop sid cid script msgs).1 = .timedOut →
          cid ∈ (queryLoop sid cid script msgs).2.map QueryInfo.correlation_id) ∧
       (∀ e, (queryLoop sid cid script msgs).1 = .failed e →
          cid ∈ (queryLoop sid cid script msgs).2.map QueryInfo.correlation_id)) := by
  intro script
  induction script with
  | nil =>
      intro msgs hmap
      by_cases hd : infoDone cid msgs
      · have heq : queryLoop sid cid [] msgs =
            (.success (infoMessage cid msgs), removeInfo cid msgs) := by
          simp [queryLoop, hd]
        rw [heq]
        refine ⟨fun m _ => ?_, fun h => QueryOutcome.noConfusion h,
          fun e h => QueryOutcome.noConfusion h⟩
        rw [removeInfo_map cid msgs A hmap hA]
        exact hA
      · have heq : queryLoop sid cid [] msgs = (.timedOut, msgs) := by
          simp [queryLoop, hd]
        rw [heq]
        refine ⟨fun m h => QueryOutcome.noConfusion h, fun _ => ?_,
          fun e h => QueryOutcome.noConfusion h⟩
        rw [hmap]
        simp
  | cons f fs ih =>
      intro msgs hmap
      by_cases hd : infoDone cid msgs
      · have heq : queryLoop sid cid (f :: fs) msgs =
            (.success (infoMessage cid msgs), removeInfo cid msgs) := by
          simp [queryLoop, hd]
        rw [heq]
        refine ⟨fun m _ => ?_, fun h => QueryOutcome.noConfusion h,
          fun e h => QueryOutcome.noConfusion h⟩
        rw [removeInfo_map cid msgs A hmap hA]
        exact hA
      · rcases he : processLine sid msgs f with e0 | msgs2
        · have heq : queryLoop sid cid (f :: fs) msgs = (.failed e0, msgs) := by
            simp [queryLoop, hd, he]
          rw [heq]
          refine ⟨fun m h => QueryOutcome.noConfusion h,
            fun h => QueryOutcome.noConfusion h, fun e _ => ?_⟩
          rw [hmap]
          simp
        · have heq : queryLoop sid cid (f :: fs) msgs = queryLoop sid cid fs msgs2 := by
            simp [queryLoop, hd, he]
          rw [heq]
          exact ih msgs2 ((processLine_cids sid msgs msgs2 f he).trans hmap)

/-- C8 counterexample: a query that reaches its local deadline (modelled by
an exhausted frame script) raises TimeoutError while its in-flight record
is still in the tracking list — there is no try/finally around the `del`. -/
theorem timeout_removal_counterexample :
    (sendRecvQuery "s1" "c1" false [] []).1 = .timedOut ∧
    (sendRecvQuery "s1" "c1" false [] []).2 = [newQueryInfo "c1" false] ∧
    (newQueryInfo "c1" false).correlation_id = "c1" :=
  ⟨by decide, by decide, rfl⟩

/-- C8 amended: only a successfully resolving `query` call prunes its
InFlightQuery from the tracking map; a call that fails with a SessionError
or reaches its deadline leaves the record in the in-flight collection. -/
theorem inflight_pruning (sid cid : String) (cb : Bool)
    (msgs : List QueryInfo) (script : List Frame)
    (hfresh : cid ∉ msgs.map QueryInfo.correlation_id) :
    (∀ m, (sendRecvQuery sid cid cb msgs script).1 = .success m →
        cid ∉ (sendRecvQuery sid cid cb msgs script).2.map QueryInfo.correlation_id) ∧
    ((sendRecvQuery sid cid cb msgs script).1 = .timedOut →
        cid ∈ (sendRecvQuery sid cid cb msgs script).2.map QueryInfo.correlation_id) ∧
    (∀ e, (sendRecvQuery sid cid cb msgs script).1 = .failed e →
        cid ∈ (sendRecvQuery sid cid cb msgs script).2.map QueryInfo.correlation_id) := by
  have hmap : (msgs ++ [newQueryInfo cid cb]).map QueryInfo.correlation_id =
      msgs.map QueryInfo.correlation_id ++ [cid] := by simp [newQueryInfo]
  exact queryLoop_tracking sid cid (msgs.map QueryInfo.correlation_id) hfresh script
    (msgs ++ [newQueryInfo cid cb]) hmap

/-- Witness for `inflight_pruning`: the record stays after a timeout and is
gone after a successful Scenario A run. -/
theorem inflight_pruning_witness :
    "c1" ∈ (sendRecvQuery "s1" "c1" false [] []).2.map QueryInfo.correlation_id ∧
    "c1" ∉ (sendRecvQuery "s1" "c1" false [] scenarioAFrames).2.map
      QueryInfo.correlation_id :=
  ⟨(inflight_pruning "s1" "c1" false [] [] (by simp)).2.1 (by decide),
   (inflight_pruning "s1" "c1" false [] scenarioAFrames (by simp)).1
     (some { id := "m1", content := "Hello world", reply_to := some "m1",
             votes := 0, type_list := [] }) (by decide)⟩
